import Mathlib

/-!
Shallow embedding of the conversation-orchestration core of the
ALEX-DEV-v1 repository: the scoring engine, the cost tracker, the
LLM router with ordered fallback, the Gemini adapter's error handling,
the persistence store, and the two orchestrating use-cases
(TagMessage and GenerateResponse).  Machine numbers are modelled as
Int/Nat (scores, trust, tokens) and Rat (monetary cost); fallible
provider calls are modelled with Except.
-/

namespace AlexDev

/-! ## ScoreEngine (src/domain/services/ScoreEngine.ts) -/

/-- Signal weight table of `ScoreEngine`, embedded as an association list. -/
def ScoreEngine.weights : List (String × Int) :=
  [("DEBUG_REQUEST", 15),
   ("REFACTOR_REQUEST", 20),
   ("ARCHITECTURE_DESIGN", 30),
   ("OPTIMIZATION_SUGGESTION", 25),
   ("TECHNICAL_BLOCKER", -10),
   ("CLARIFICATION_PROVIDED", 10)]

/-- Weight lookup `this.weights[s] || 0`: a signal absent from the table
contributes 0. -/
def ScoreEngine.weightOf (s : String) : Int :=
  ((ScoreEngine.weights.find? (fun p => p.fst == s)).map Prod.snd).getD 0

/-- `ScoreEngine.updateScore`: add the summed signal weights to the current
score and clamp below at 0. -/
def ScoreEngine.updateScore (current : Int) (signals : List String) : Int :=
  let delta := signals.foldl (fun acc s => acc + ScoreEngine.weightOf s) 0
  max 0 (current + delta)

/-- `ScoreEngine.deriveStage`: map a score to a stage label by ascending
thresholds. -/
def ScoreEngine.deriveStage (score : Int) : String :=
  if score < 25 then "triage"
  else if score < 50 then "analysis"
  else if score < 80 then "implementation"
  else "review"

/-! ## CostTracker (src/infrastructure/cost/CostTracker.ts) -/

/-- Immutable configuration held by `CostTracker`. -/
structure CostTracker where
  costPer1kTokens : ℚ
  budgetThreshold : ℚ
deriving Repr, DecidableEq

/-- The `CostTracker` constructor: it stores both configured values with no
validation. -/
def CostTracker.make (costPer1kTokens budgetThreshold : ℚ) : CostTracker :=
  { costPer1kTokens := costPer1kTokens, budgetThreshold := budgetThreshold }

/-- `CostTracker.calculateCost`. -/
def CostTracker.calculateCost (ct : CostTracker) (tokensUsed : ℚ) : ℚ :=
  tokensUsed / 1000 * ct.costPer1kTokens

/-- `CostTracker.isOverBudget`: true iff total cost reaches the threshold
(boundary inclusive). -/
def CostTracker.isOverBudget (ct : CostTracker) (totalCost : ℚ) : Bool :=
  decide (ct.budgetThreshold ≤ totalCost)

/-! ## Provider contracts (src/application/contracts/ILLMProvider.ts) -/

/-- Context passed to `classify`. -/
structure ClassifyContext where
  lastTags : List String
  stage : String
  trustLevel : Int
deriving Repr, DecidableEq

/-- Input of `ILLMProvider.classify`. -/
structure ClassifyInput where
  message : String
  context : ClassifyContext
deriving Repr, DecidableEq

/-- Result of a classification call. -/
structure Classification where
  tags : List String
  signals : List String
  tokensUsed : Nat
deriving Repr, DecidableEq

/-- One turn of reconstructed dialogue history. -/
structure HistoryEntry where
  role : String
  content : String
deriving Repr, DecidableEq

/-- Context passed to `generateResponse`. -/
structure GenContext where
  stage : String
  trustLevel : Int
deriving Repr, DecidableEq

/-- Input of `ILLMProvider.generateResponse` (with the optional constitution
fields of the src version of GenerateResponse). -/
structure GenInput where
  message : String
  history : List HistoryEntry
  context : GenContext
  constitutionId : Option String
  customContext : Option String
deriving Repr, DecidableEq

/-- Result of a generation call. -/
structure GenerationResult where
  text : String
  tokensUsed : Nat
deriving Repr, DecidableEq

/-! ## LLMRouter (src/infrastructure/llm/LLMRouter.ts)

A backend is a function from the call input to `Except String result`
(error = the provider threw).  Both router methods run the same loop:
try each provider in order, return the first success, remember the last
error, emit one `console.warn` line per failure; if the list is
exhausted, throw the last error (initialised to "No providers
available").  The returned `List String` is the warning log, which makes
the invocation of each failing backend observable. -/

/-- Router fallback loop shared by `classify` and `generateResponse`:
returns the call's outcome together with the warning log. -/
def routerGo {Input Output : Type} (input : Input) (warnMsg : String) :
    List (Input → Except String Output) → String → Except String Output × List String
  | [], lastError => (Except.error lastError, [])
  | provider :: rest, lastError =>
    match provider input with
    | Except.ok r => (Except.ok r, [])
    | Except.error e =>
      let next := routerGo input warnMsg rest e
      (next.fst, warnMsg :: next.snd)

/-- `LLMRouter.classify` over an ordered provider list. -/
def LLMRouter.classify (providers : List (ClassifyInput → Except String Classification))
    (input : ClassifyInput) : Except String Classification × List String :=
  routerGo input "LLMRouter Classify: Provider failed, trying next..." providers
    "No providers available"

/-- `LLMRouter.generateResponse` over an ordered provider list. -/
def LLMRouter.generateResponse
    (providers : List (GenInput → Except String GenerationResult))
    (input : GenInput) : Except String GenerationResult × List String :=
  routerGo input "LLMRouter Chat: Provider failed, trying next..." providers
    "No providers available"

/-! ## GeminiAdapter (src/infrastructure/llm/GeminiAdapter.ts)

The adapter wraps the fallible model call (generateContent / sendMessage
plus JSON parsing) — modelled by the `attempt` argument — in a try/catch
that converts any failure into a successful sentinel result. -/

/-- `GeminiAdapter.classify`: on any failure of the model call or parse,
resolve successfully with the ERROR sentinel. -/
def GeminiAdapter.classify (attempt : ClassifyInput → Except String Classification)
    (input : ClassifyInput) : Except String Classification :=
  match attempt input with
  | Except.ok parsed => Except.ok parsed
  | Except.error _ => Except.ok { tags := ["ERROR"], signals := [], tokensUsed := 0 }

/-- `GeminiAdapter.generateResponse`: on any failure, resolve successfully
with a fixed apology text and zero tokens. -/
def GeminiAdapter.generateResponse (attempt : GenInput → Except String GenerationResult)
    (input : GenInput) : Except String GenerationResult :=
  match attempt input with
  | Except.ok result => Except.ok result
  | Except.error _ =>
    Except.ok { text := "Lo siento Gabriel, tuve un micro-corte en mi núcleo de procesamiento. ¿Puedes repetir eso?",
                tokensUsed := 0 }

/-! ## Persistence (PrismaConversationRepository / PrismaConversationEventRepository)

Conversations are rows keyed by a generated id (modelled as a Nat drawn
from a `nextId` counter); events are an append-only list ordered by
creation. -/

/-- `ConversationState` row (timestamps beyond `lastInteractionAt` omitted;
`lastInteractionAt` is an abstract clock value). -/
structure ConversationState where
  id : Nat
  userId : String
  currentScore : Int
  cumulativeScore : Int
  lastTags : List String
  trustLevel : Int
  stage : String
  messageCount : Nat
  conversationCost : ℚ
  overBudget : Bool
  lastInteractionAt : Nat
deriving Repr, DecidableEq

/-- Metadata payload of a `ConversationEvent`. -/
inductive EventMetadata where
  | content (text : String)
  | signalsDetected (signals : List String)
  | stageChange (fromStage toStage : String)
deriving Repr, DecidableEq

/-- Append-only `ConversationEvent` row. -/
structure ConversationEvent where
  conversationId : Nat
  type : String
  metadata : EventMetadata
deriving Repr, DecidableEq

/-- The persistent store: conversation rows, the event log, and the id
generator state. -/
structure Store where
  conversations : List ConversationState
  events : List ConversationEvent
  nextId : Nat
deriving Repr, DecidableEq

/-- `PrismaConversationRepository.findOrCreate`: return the stored row for
`userId`, or create one with the default fields (score 0, trust 50, stage
"discovery"). -/
def Store.findOrCreate (store : Store) (userId : String) : ConversationState × Store :=
  match store.conversations.find? (fun c => c.userId == userId) with
  | some conversation => (conversation, store)
  | none =>
    let created : ConversationState :=
      { id := store.nextId, userId := userId, currentScore := 0, cumulativeScore := 0,
        lastTags := [], trustLevel := 50, stage := "discovery", messageCount := 0,
        conversationCost := 0, overBudget := false, lastInteractionAt := 0 }
    (created,
     { store with conversations := store.conversations ++ [created],
                  nextId := store.nextId + 1 })

/-- `PrismaConversationEventRepository.create`: append an event. -/
def Store.appendEvent (store : Store) (e : ConversationEvent) : Store :=
  { store with events := store.events ++ [e] }

/-- `PrismaConversationRepository.update`: set the given fields on the row
with the given id. -/
def Store.updateConversation (store : Store) (id : Nat)
    (f : ConversationState → ConversationState) : Store :=
  { store with conversations := store.conversations.map (fun c => if c.id = id then f c else c) }

/-- `PrismaConversationEventRepository.findByConversation`: the events of a
conversation in creation order. -/
def Store.findByConversation (store : Store) (conversationId : Nat) : List ConversationEvent :=
  store.events.filter (fun e => e.conversationId == conversationId)

/-- Content field access `(e.metadata as any).content`. -/
def EventMetadata.contentText : EventMetadata → String
  | EventMetadata.content text => text
  | _ => ""

/-! ## TagMessage (src/application/use-cases/TagMessage.ts) -/

/-- Output of `TagMessage.execute`. -/
structure TagMessageOutput where
  conversationId : Nat
  currentScore : Int
  stage : String
  trustLevel : Int
  tags : List String
  signals : List String
  cost : ℚ
deriving Repr, DecidableEq

/-- The try/catch around the provider's classify call: a failure is replaced
by the degraded UNCLASSIFIED classification. -/
def classifyWithFallback (classify : ClassifyInput → Except String Classification)
    (input : ClassifyInput) : Classification :=
  match classify input with
  | Except.ok c => c
  | Except.error _ => { tags := ["UNCLASSIFIED"], signals := [], tokensUsed := 0 }

/-- Trust delta computation of `TagMessage.execute`: two sequential
assignments guarded by membership tests. -/
def trustDeltaOf (signals : List String) : Int :=
  let trustDelta : Int := 0
  let trustDelta := if signals.contains "POSITIVE_EMOTION" then 5 else trustDelta
  let trustDelta := if signals.contains "OBJECTION" then -5 else trustDelta
  trustDelta

/-- `TagMessage.execute`: resolve the conversation, log the message, classify
with fallback, log signal and stage-change events, update score, stage, cost
and trust, persist the row, and return the result.  `now` stands for
`new Date()`. -/
def TagMessage.execute (classify : ClassifyInput → Except String Classification)
    (costTracker : CostTracker) (now : Nat) (store : Store)
    (userId message : String) : TagMessageOutput × Store :=
  let fc := store.findOrCreate userId
  let conversation := fc.fst
  let store1 := fc.snd
  let store2 := store1.appendEvent
    { conversationId := conversation.id, type := "MESSAGE",
      metadata := EventMetadata.content message }
  let classification := classifyWithFallback classify
    { message := message,
      context := { lastTags := conversation.lastTags, stage := conversation.stage,
                   trustLevel := conversation.trustLevel } }
  let store3 :=
    if classification.signals.length > 0 then
      store2.appendEvent
        { conversationId := conversation.id, type := "SIGNALS_DETECTED",
          metadata := EventMetadata.signalsDetected classification.signals }
    else store2
  let newScore := ScoreEngine.updateScore conversation.currentScore classification.signals
  let newStage := ScoreEngine.deriveStage newScore
  let store4 :=
    if newStage ≠ conversation.stage then
      store3.appendEvent
        { conversationId := conversation.id, type := "STAGE_CHANGE",
          metadata := EventMetadata.stageChange conversation.stage newStage }
    else store3
  let messageCost := costTracker.calculateCost (classification.tokensUsed : ℚ)
  let totalCost := conversation.conversationCost + messageCost
  let isOver := costTracker.isOverBudget totalCost
  let newTrust := max 0 (min 100 (conversation.trustLevel + trustDeltaOf classification.signals))
  let store5 := store4.updateConversation conversation.id (fun c =>
    { c with
      currentScore := newScore,
      cumulativeScore := conversation.cumulativeScore +
        (if newScore > conversation.currentScore
         then newScore - conversation.currentScore else 0),
      lastTags := classification.tags,
      trustLevel := newTrust,
      stage := newStage,
      messageCount := conversation.messageCount + 1,
      conversationCost := totalCost,
      overBudget := isOver,
      lastInteractionAt := now })
  ({ conversationId := conversation.id, currentScore := newScore, stage := newStage,
     trustLevel := newTrust, tags := classification.tags,
     signals := classification.signals, cost := messageCost }, store5)

/-- Fold of `TagMessage.execute` over a sequence of (userId, message)
invocations. -/
def runTagMessages (classify : ClassifyInput → Except String Classification)
    (costTracker : CostTracker) (now : Nat) (store : Store)
    (msgs : List (String × String)) : Store :=
  msgs.foldl (fun st um => (TagMessage.execute classify costTracker now st um.fst um.snd).snd)
    store

/-! ## GenerateResponse (src/application/use-cases/GenerateResponse.ts) -/

/-- Output of `GenerateResponse.execute`. -/
structure ChatOutput where
  response : String
  stage : String
  trustLevel : Int
deriving Repr, DecidableEq

/-- History reconstruction: keep message/response events, take the last 10,
map to role/content pairs preserving order. -/
def buildHistory (recentEvents : List ConversationEvent) : List HistoryEntry :=
  let filtered := recentEvents.filter
    (fun e => e.type == "MESSAGE" || e.type == "ASSISTANT_RESPONSE")
  let lastTen := filtered.drop (filtered.length - 10)
  lastTen.map (fun e =>
    { role := if e.type == "MESSAGE" then "user" else "assistant",
      content := e.metadata.contentText })

/-- `GenerateResponse.execute`: resolve the conversation, rebuild recent
history, call the provider (a failure propagates), log the assistant
response, and return text with the stored stage and trust. -/
def GenerateResponse.execute (generateResponse : GenInput → Except String GenerationResult)
    (store : Store) (userId message : String)
    (constitutionId customContext : Option String) : Except String (ChatOutput × Store) :=
  let fc := store.findOrCreate userId
  let conversation := fc.fst
  let store1 := fc.snd
  let recentEvents := store1.findByConversation conversation.id
  let history := buildHistory recentEvents
  match generateResponse
    { message := message, history := history,
      context := { stage := conversation.stage, trustLevel := conversation.trustLevel },
      constitutionId := constitutionId, customContext := customContext } with
  | Except.error e => Except.error e
  | Except.ok result =>
    let store2 := store1.appendEvent
      { conversationId := conversation.id, type := "ASSISTANT_RESPONSE",
        metadata := EventMetadata.content result.text }
    Except.ok ({ response := result.text, stage := conversation.stage,
                 trustLevel := conversation.trustLevel }, store2)

/-! ## Helper lemmas -/

@[simp] lemma Store.appendEvent_conversations (store : Store) (e : ConversationEvent) :
    (store.appendEvent e).conversations = store.conversations := rfl

@[simp] lemma Store.appendEvent_nextId (store : Store) (e : ConversationEvent) :
    (store.appendEvent e).nextId = store.nextId := rfl

@[simp] lemma Store.ite_appendEvent_conversations (P : Prop) [Decidable P]
    (store : Store) (e : ConversationEvent) :
    (if P then store.appendEvent e else store).conversations = store.conversations := by
  split <;> rfl

@[simp] lemma Store.ite_appendEvent_nextId (P : Prop) [Decidable P]
    (store : Store) (e : ConversationEvent) :
    (if P then store.appendEvent e else store).nextId = store.nextId := by
  split <;> rfl

@[simp] lemma Store.updateConversation_conversations (store : Store) (id : Nat)
    (f : ConversationState → ConversationState) :
    (store.updateConversation id f).conversations
      = store.conversations.map (fun c => if c.id = id then f c else c) := rfl

@[simp] lemma Store.updateConversation_nextId (store : Store) (id : Nat)
    (f : ConversationState → ConversationState) :
    (store.updateConversation id f).nextId = store.nextId := rfl

lemma foldl_add_weightOf (signals : List String) (a : Int) :
    signals.foldl (fun acc s => acc + ScoreEngine.weightOf s) a
      = a + (signals.map ScoreEngine.weightOf).sum := by
  induction signals generalizing a with
  | nil => simp
  | cons s rest ih => simp [List.foldl_cons, ih]; ring

/-! ## Claim theorems -/

/-- C4: for every non-negative current score and every signal list,
`updateScore` equals `max 0 (current + sum of table weights)`, is never below
0, and signals absent from the weight table contribute weight 0. -/
theorem updateScore_spec (current : Int) (signals : List String) (s : String)
    (h : 0 ≤ current) (hs : s ∉ ScoreEngine.weights.map Prod.fst) :
    ScoreEngine.updateScore current signals
        = max 0 (current + (signals.map ScoreEngine.weightOf).sum) ∧
    0 ≤ ScoreEngine.updateScore current signals ∧
    ScoreEngine.weightOf s = 0 := by
  refine ⟨?_, ?_, ?_⟩
  · simp [ScoreEngine.updateScore, foldl_add_weightOf]
  · simp [ScoreEngine.updateScore]
  · unfold ScoreEngine.weightOf
    have hnone : ScoreEngine.weights.find? (fun p => p.fst == s) = none := by
      rw [List.find?_eq_none]
      intro p hp
      simp only [beq_iff_eq]
      intro he
      exact hs (he ▸ List.mem_map_of_mem Prod.fst hp)
    rw [hnone]
    rfl

/-- Witness for C4 at current score 50, a known plus an unknown signal. -/
theorem updateScore_spec_witness :
    ScoreEngine.updateScore 50 ["TECHNICAL_BLOCKER", "NO_SUCH_SIGNAL"]
        = max 0 (50 + ((["TECHNICAL_BLOCKER", "NO_SUCH_SIGNAL"] : List String).map
            ScoreEngine.weightOf).sum) ∧
    0 ≤ ScoreEngine.updateScore 50 ["TECHNICAL_BLOCKER", "NO_SUCH_SIGNAL"] ∧
    ScoreEngine.weightOf "NO_SUCH_SIGNAL" = 0 :=
  updateScore_spec 50 ["TECHNICAL_BLOCKER", "NO_SUCH_SIGNAL"] "NO_SUCH_SIGNAL"
    (by norm_num) (by decide)

/-- C9 counterexample: construction with negative configuration is not
rejected — it yields a working tracker that even returns a negative cost. -/
theorem costTracker_no_validation_cex :
    CostTracker.make (-1) (-1) = { costPer1kTokens := -1, budgetThreshold := -1 } ∧
    (CostTracker.make (-1) (-1)).calculateCost 2000 = -2 ∧
    (CostTracker.make (-1) (-1)).isOverBudget 0 = true := by
  refine ⟨rfl, ?_, by decide⟩
  norm_num [CostTracker.make, CostTracker.calculateCost]

/-- C9 (amended): the constructor performs no validation and accepts any
configuration, negative values included; `calculateCost` and `isOverBudget`
are pure, deterministic and total for every configuration. -/
theorem costTracker_total_spec (c b tokens total : ℚ) :
    (CostTracker.make c b).costPer1kTokens = c ∧
    (CostTracker.make c b).budgetThreshold = b ∧
    (CostTracker.make c b).calculateCost tokens = tokens / 1000 * c ∧
    (CostTracker.make c b).isOverBudget total = decide (b ≤ total) :=
  ⟨rfl, rfl, rfl, rfl⟩

/-- C6 (code evaluation at the failing input): `deriveStage 10` is "triage",
yet a freshly created conversation starts at stage "discovery", a label that
`deriveStage` can never produce — the creation stage lies outside the stage
range, contradicting the repository's own test expecting
`deriveStage(10) = "discovery"`. -/
theorem deriveStage_misses_creation_stage :
    ScoreEngine.deriveStage 10 = "triage" ∧
    ((Store.findOrCreate { conversations := [], events := [], nextId := 0 } "user").fst).stage
        = "discovery" ∧
    (∀ score : Int, ScoreEngine.deriveStage score ≠ "discovery") := by
  refine ⟨rfl, rfl, ?_⟩
  intro score
  unfold ScoreEngine.deriveStage
  split_ifs <;> decide

/-! ## Router lemmas -/

lemma routerGo_all_fail {Input Output : Type} (input : Input) (w : String)
    (ps : List (Input → Except String Output)) (p : Input → Except String Output)
    (e init : String)
    (hall : ∀ q ∈ ps, ∃ e', q input = Except.error e')
    (hp : p input = Except.error e) :
    (routerGo input w (ps ++ [p]) init).fst = Except.error e := by
  induction ps generalizing init with
  | nil => simp [routerGo, hp]
  | cons q rest ih =>
    obtain ⟨e', he'⟩ := hall q (List.mem_cons_self q rest)
    simp only [List.cons_append, routerGo, he']
    exact ih e' (fun r hr => hall r (List.mem_cons_of_mem q hr))

lemma routerGo_first_success {Input Output : Type} (input : Input) (w : String)
    (ps : List (Input → Except String Output)) (p : Input → Except String Output)
    (post : List (Input → Except String Output)) (r : Output) (init : String)
    (hall : ∀ q ∈ ps, ∃ e', q input = Except.error e')
    (hp : p input = Except.ok r) :
    routerGo input w (ps ++ p :: post) init = (Except.ok r, List.replicate ps.length w) := by
  induction ps generalizing init with
  | nil => simp [routerGo, hp]
  | cons q rest ih =>
    obtain ⟨e', he'⟩ := hall q (List.mem_cons_self q rest)
    have hih := ih e' (fun x hx => hall x (List.mem_cons_of_mem q hx))
    simp [routerGo, he', hih, List.replicate_succ]

lemma routerGo_skip_after_ok {Input Output : Type} (input : Input) (w : String)
    (g : Input → Except String Output) (hg : ∃ r, g input = Except.ok r)
    (ps post : List (Input → Except String Output)) (init : String) :
    routerGo input w (ps ++ g :: post) init = routerGo input w (ps ++ [g]) init := by
  induction ps generalizing init with
  | nil =>
    obtain ⟨r, hr⟩ := hg
    simp [routerGo, hr]
  | cons q rest ih =>
    cases hq : q input with
    | ok r => simp [routerGo, hq]
    | error e =>
      have hih := ih e
      simp [routerGo, hq, hih]

/-- C2: when every backend in the list fails, both router calls surface
exactly the error of the last backend in the list. -/
theorem router_surfaces_last_error
    (psC : List (ClassifyInput → Except String Classification))
    (pC : ClassifyInput → Except String Classification)
    (inC : ClassifyInput) (eC : String)
    (hallC : ∀ q ∈ psC, ∃ e', q inC = Except.error e')
    (hlastC : pC inC = Except.error eC)
    (psG : List (GenInput → Except String GenerationResult))
    (pG : GenInput → Except String GenerationResult)
    (inG : GenInput) (eG : String)
    (hallG : ∀ q ∈ psG, ∃ e', q inG = Except.error e')
    (hlastG : pG inG = Except.error eG) :
    (LLMRouter.classify (psC ++ [pC]) inC).fst = Except.error eC ∧
    (LLMRouter.generateResponse (psG ++ [pG]) inG).fst = Except.error eG :=
  ⟨routerGo_all_fail inC _ psC pC eC _ hallC hlastC,
   routerGo_all_fail inG _ psG pG eG _ hallG hlastG⟩

/-- Witness for C2 with two failing classify backends (errors E1, E2, surfacing
E2) and two failing generation backends (errors F1, F2, surfacing F2). -/
theorem router_surfaces_last_error_witness :
    (LLMRouter.classify
        ([fun _ => Except.error "E1"] ++ [fun _ => Except.error "E2"])
        { message := "m", context := { lastTags := [], stage := "discovery", trustLevel := 50 } }).fst
      = Except.error "E2" ∧
    (LLMRouter.generateResponse
        ([fun _ => Except.error "F1"] ++ [fun _ => Except.error "F2"])
        { message := "m", history := [], context := { stage := "discovery", trustLevel := 50 },
          constitutionId := none, customContext := none }).fst
      = Except.error "F2" :=
  router_surfaces_last_error
    [fun _ => Except.error "E1"] (fun _ => Except.error "E2") _ "E2"
    (by intro q hq; simp at hq; exact ⟨"E1", by rw [hq]⟩) rfl
    [fun _ => Except.error "F1"] (fun _ => Except.error "F2") _ "F2"
    (by intro q hq; simp at hq; exact ⟨"F1", by rw [hq]⟩) rfl

/-- C7: both router calls invoke the backends in list order, return the result
of the first succeeding backend, observe (warn about) exactly one failure per
preceding backend, and behave identically whether or not any backends follow
the first success — those are never invoked. -/
theorem router_ordered_fallback
    (psC : List (ClassifyInput → Except String Classification))
    (pC : ClassifyInput → Except String Classification)
    (postC : List (ClassifyInput → Except String Classification))
    (inC : ClassifyInput) (rC : Classification)
    (hallC : ∀ q ∈ psC, ∃ e', q inC = Except.error e')
    (hpC : pC inC = Except.ok rC)
    (psG : List (GenInput → Except String GenerationResult))
    (pG : GenInput → Except String GenerationResult)
    (postG : List (GenInput → Except String GenerationResult))
    (inG : GenInput) (rG : GenerationResult)
    (hallG : ∀ q ∈ psG, ∃ e', q inG = Except.error e')
    (hpG : pG inG = Except.ok rG) :
    LLMRouter.classify (psC ++ pC :: postC) inC
        = (Except.ok rC,
           List.replicate psC.length "LLMRouter Classify: Provider failed, trying next...") ∧
    LLMRouter.classify (psC ++ pC :: postC) inC = LLMRouter.classify (psC ++ [pC]) inC ∧
    LLMRouter.generateResponse (psG ++ pG :: postG) inG
        = (Except.ok rG,
           List.replicate psG.length "LLMRouter Chat: Provider failed, trying next...") ∧
    LLMRouter.generateResponse (psG ++ pG :: postG) inG
        = LLMRouter.generateResponse (psG ++ [pG]) inG := by
  exact ⟨routerGo_first_success inC _ psC pC postC rC _ hallC hpC,
         (routerGo_first_success inC _ psC pC postC rC _ hallC hpC).trans
           (routerGo_first_success inC _ psC pC [] rC _ hallC hpC).symm,
         routerGo_first_success inG _ psG pG postG rG _ hallG hpG,
         (routerGo_first_success inG _ psG pG postG rG _ hallG hpG).trans
           (routerGo_first_success inG _ psG pG [] rG _ hallG hpG).symm⟩

/-- Witness for C7: backends [fails E1, fails E2, succeeds] for both calls. -/
theorem router_ordered_fallback_witness :
    LLMRouter.classify
        ([fun _ => Except.error "E1", fun _ => Except.error "E2"]
          ++ (fun _ => Except.ok { tags := ["t"], signals := [], tokensUsed := 5 }) :: [])
        { message := "m", context := { lastTags := [], stage := "discovery", trustLevel := 50 } }
      = (Except.ok { tags := ["t"], signals := [], tokensUsed := 5 },
         List.replicate 2 "LLMRouter Classify: Provider failed, trying next...") ∧
    LLMRouter.classify
        ([fun _ => Except.error "E1", fun _ => Except.error "E2"]
          ++ (fun _ => Except.ok { tags := ["t"], signals := [], tokensUsed := 5 }) :: [])
        { message := "m", context := { lastTags := [], stage := "discovery", trustLevel := 50 } }
      = LLMRouter.classify
          ([fun _ => Except.error "E1", fun _ => Except.error "E2"]
            ++ [fun _ => Except.ok { tags := ["t"], signals := [], tokensUsed := 5 }])
          { message := "m", context := { lastTags := [], stage := "discovery", trustLevel := 50 } } ∧
    LLMRouter.generateResponse
        ([fun _ => Except.error "F1", fun _ => Except.error "F2"]
          ++ (fun _ => Except.ok { text := "hi", tokensUsed := 5 }) :: [])
        { message := "m", history := [], context := { stage := "discovery", trustLevel := 50 },
          constitutionId := none, customContext := none }
      = (Except.ok { text := "hi", tokensUsed := 5 },
         List.replicate 2 "LLMRouter Chat: Provider failed, trying next...") ∧
    LLMRouter.generateResponse
        ([fun _ => Except.error "F1", fun _ => Except.error "F2"]
          ++ (fun _ => Except.ok { text := "hi", tokensUsed := 5 }) :: [])
        { message := "m", history := [], context := { stage := "discovery", trustLevel := 50 },
          constitutionId := none, customContext := none }
      = LLMRouter.generateResponse
          ([fun _ => Except.error "F1", fun _ => Except.error "F2"]
            ++ [fun _ => Except.ok { text := "hi", tokensUsed := 5 }])
          { message := "m", history := [], context := { stage := "discovery", trustLevel := 50 },
            constitutionId := none, customContext := none } :=
  router_ordered_fallback
    [fun _ => Except.error "E1", fun _ => Except.error "E2"]
    (fun _ => Except.ok { tags := ["t"], signals := [], tokensUsed := 5 }) [] _ _
    (by intro q hq; simp at hq
        rcases hq with h | h <;> exact ⟨_, by rw [h]⟩) rfl
    [fun _ => Except.error "F1", fun _ => Except.error "F2"]
    (fun _ => Except.ok { text := "hi", tokensUsed := 5 }) [] _ _
    (by intro q hq; simp at hq
        rcases hq with h | h <;> exact ⟨_, by rw [h]⟩) rfl

/-- C10: the GeminiAdapter never surfaces a failure — on an internal failure
`classify` resolves with the ERROR sentinel and `generateResponse` with the
canned apology; every call resolves successfully; with a GeminiAdapter in the
router's backend list the backends after it are irrelevant (never invoked on
its internal failure); and a TagMessage run whose provider is a failing
GeminiAdapter yields tags ["ERROR"], so the UNCLASSIFIED degraded path is
unreachable through it. -/
theorem gemini_never_fails :
    (∀ (attempt : ClassifyInput → Except String Classification) input e,
        attempt input = Except.error e →
        GeminiAdapter.classify attempt input
          = Except.ok { tags := ["ERROR"], signals := [], tokensUsed := 0 }) ∧
    (∀ (attempt : GenInput → Except String GenerationResult) input e,
        attempt input = Except.error e →
        GeminiAdapter.generateResponse attempt input
          = Except.ok { text := "Lo siento Gabriel, tuve un micro-corte en mi núcleo de procesamiento. ¿Puedes repetir eso?",
                        tokensUsed := 0 }) ∧
    (∀ (attempt : ClassifyInput → Except String Classification) input,
        ∃ r, GeminiAdapter.classify attempt input = Except.ok r) ∧
    (∀ (attempt : GenInput → Except String GenerationResult) input,
        ∃ r, GeminiAdapter.generateResponse attempt input = Except.ok r) ∧
    (∀ (attempt : ClassifyInput → Except String Classification) ps post input,
        LLMRouter.classify (ps ++ GeminiAdapter.classify attempt :: post) input
          = LLMRouter.classify (ps ++ [GeminiAdapter.classify attempt]) input) ∧
    (∀ (attempt : GenInput → Except String GenerationResult) ps post input,
        LLMRouter.generateResponse (ps ++ GeminiAdapter.generateResponse attempt :: post) input
          = LLMRouter.generateResponse (ps ++ [GeminiAdapter.generateResponse attempt]) input) ∧
    (∀ (attempt : ClassifyInput → Except String Classification),
        (∀ inp, ∃ e, attempt inp = Except.error e) →
        ∀ costTracker now store userId message,
          (TagMessage.execute (GeminiAdapter.classify attempt)
              costTracker now store userId message).fst.tags = ["ERROR"]) := by
  have hok : ∀ (attempt : ClassifyInput → Except String Classification) input,
      ∃ r, GeminiAdapter.classify attempt input = Except.ok r := by
    intro attempt input
    unfold GeminiAdapter.classify
    cases attempt input with
    | ok parsed => exact ⟨parsed, rfl⟩
    | error e => exact ⟨_, rfl⟩
  have hokG : ∀ (attempt : GenInput → Except String GenerationResult) input,
      ∃ r, GeminiAdapter.generateResponse attempt input = Except.ok r := by
    intro attempt input
    unfold GeminiAdapter.generateResponse
    cases attempt input with
    | ok result => exact ⟨result, rfl⟩
    | error e => exact ⟨_, rfl⟩
  refine ⟨?_, ?_, hok, hokG, ?_, ?_, ?_⟩
  · intro attempt input e he
    unfold GeminiAdapter.classify
    rw [he]
  · intro attempt input e he
    unfold GeminiAdapter.generateResponse
    rw [he]
  · intro attempt ps post input
    exact routerGo_skip_after_ok input _ _ (hok attempt input) ps post _
  · intro attempt ps post input
    exact routerGo_skip_after_ok input _ _ (hokG attempt input) ps post _
  · intro attempt hfail costTracker now store userId message
    obtain ⟨e, he⟩ := hfail
      { message := message,
        context := { lastTags := (store.findOrCreate userId).fst.lastTags,
                     stage := (store.findOrCreate userId).fst.stage,
                     trustLevel := (store.findOrCreate userId).fst.trustLevel } }
    have hcls : classifyWithFallback (GeminiAdapter.classify attempt)
        { message := message,
          context := { lastTags := (store.findOrCreate userId).fst.lastTags,
                       stage := (store.findOrCreate userId).fst.stage,
                       trustLevel := (store.findOrCreate userId).fst.trustLevel } }
        = { tags := ["ERROR"], signals := [], tokensUsed := 0 } := by
      unfold classifyWithFallback GeminiAdapter.classify
      rw [he]
    simp only [TagMessage.execute, hcls]

/-- Witness for C10 with an always-failing model call. -/
theorem gemini_never_fails_witness :
    GeminiAdapter.classify (fun _ => Except.error "boom")
        { message := "m", context := { lastTags := [], stage := "discovery", trustLevel := 50 } }
      = Except.ok { tags := ["ERROR"], signals := [], tokensUsed := 0 } ∧
    GeminiAdapter.generateResponse (fun _ => Except.error "boom")
        { message := "m", history := [], context := { stage := "discovery", trustLevel := 50 },
          constitutionId := none, customContext := none }
      = Except.ok { text := "Lo siento Gabriel, tuve un micro-corte en mi núcleo de procesamiento. ¿Puedes repetir eso?",
                    tokensUsed := 0 } ∧
    (TagMessage.execute (GeminiAdapter.classify (fun _ => Except.error "boom"))
        (CostTracker.make 0 100) 0 { conversations := [], events := [], nextId := 0 }
        "u" "m").fst.tags = ["ERROR"] :=
  ⟨gemini_never_fails.1 (fun _ => Except.error "boom") _ "boom" rfl,
   gemini_never_fails.2.1 (fun _ => Except.error "boom") _ "boom" rfl,
   gemini_never_fails.2.2.2.2.2.2 (fun _ => Except.error "boom")
     (fun _ => ⟨"boom", rfl⟩) _ _ _ _ _⟩

/-- C1 counterexample: a conversation at trust 50 classified with both
POSITIVE_EMOTION and OBJECTION ends at trust 45 (net delta -5), not 50. -/
theorem trust_both_signals_cex :
    (TagMessage.execute
        (fun _ => Except.ok { tags := [], signals := ["POSITIVE_EMOTION", "OBJECTION"],
                              tokensUsed := 0 })
        (CostTracker.make 0 100) 0 { conversations := [], events := [], nextId := 0 }
        "gabriel" "hola").fst.trustLevel = 45 ∧
    ((TagMessage.execute
        (fun _ => Except.ok { tags := [], signals := ["POSITIVE_EMOTION", "OBJECTION"],
                              tokensUsed := 0 })
        (CostTracker.make 0 100) 0 { conversations := [], events := [], nextId := 0 }
        "gabriel" "hola").snd.conversations.map ConversationState.trustLevel) = [45] ∧
    (45 : Int) ≠ 50 := by
  refine ⟨by decide, by decide, by decide⟩

/-- C1 (amended): the two trust-delta branches are assignments, not additions,
so whenever OBJECTION is among the signals the delta is -5 even if
POSITIVE_EMOTION is also present; from trust 50 the returned and persisted
trust level is 45. -/
theorem trust_objection_overwrites
    (classify : ClassifyInput → Except String Classification) (costTracker : CostTracker)
    (now : Nat) (store : Store) (userId message : String) (c : Classification)
    (hc : classify
        { message := message,
          context := { lastTags := (store.findOrCreate userId).fst.lastTags,
                       stage := (store.findOrCreate userId).fst.stage,
                       trustLevel := (store.findOrCreate userId).fst.trustLevel } }
      = Except.ok c)
    (hobj : c.signals.contains "OBJECTION" = true)
    (htrust : (store.findOrCreate userId).fst.trustLevel = 50) :
    (TagMessage.execute classify costTracker now store userId message).fst.trustLevel = 45 ∧
    (∀ row ∈ (TagMessage.execute classify costTracker now store userId message).snd.conversations,
      row.id = (store.findOrCreate userId).fst.id → row.trustLevel = 45) := by
  have hcls : classifyWithFallback classify
      { message := message,
        context := { lastTags := (store.findOrCreate userId).fst.lastTags,
                     stage := (store.findOrCreate userId).fst.stage,
                     trustLevel := (store.findOrCreate userId).fst.trustLevel } } = c := by
    unfold classifyWithFallback
    rw [hc]
  have htd : trustDeltaOf c.signals = -5 := by
    unfold trustDeltaOf
    rw [hobj]
    simp
  constructor
  · simp only [TagMessage.execute, hcls, htd]
    rw [htrust]
    decide
  · intro row hrow hid
    simp only [TagMessage.execute, hcls, htd,
      Store.updateConversation_conversations, Store.ite_appendEvent_conversations,
      Store.appendEvent_conversations] at hrow
    obtain ⟨c0, hc0, hfc0⟩ := List.mem_map.mp hrow
    by_cases h0 : c0.id = (store.findOrCreate userId).fst.id
    · rw [if_pos h0] at hfc0
      rw [← hfc0]
      simp only [htrust]
      decide
    · rw [if_neg h0] at hfc0
      rw [← hfc0] at hid
      exact absurd hid h0

/-- Witness for C1 (amended) on a fresh conversation (trust 50) and a
classification carrying both signals. -/
theorem trust_objection_overwrites_witness :
    (TagMessage.execute
        (fun _ => Except.ok { tags := [], signals := ["POSITIVE_EMOTION", "OBJECTION"],
                              tokensUsed := 0 })
        (CostTracker.make 2 100) 3 { conversations := [], events := [], nextId := 0 }
        "gabriel" "hola").fst.trustLevel = 45 ∧
    (∀ row ∈ (TagMessage.execute
        (fun _ => Except.ok { tags := [], signals := ["POSITIVE_EMOTION", "OBJECTION"],
                              tokensUsed := 0 })
        (CostTracker.make 2 100) 3 { conversations := [], events := [], nextId := 0 }
        "gabriel" "hola").snd.conversations,
      row.id = ((({ conversations := [], events := [], nextId := 0 } : Store).findOrCreate
          "gabriel").fst).id → row.trustLevel = 45) :=
  trust_objection_overwrites
    (fun _ => Except.ok { tags := [], signals := ["POSITIVE_EMOTION", "OBJECTION"],
                          tokensUsed := 0 })
    (CostTracker.make 2 100) 3 { conversations := [], events := [], nextId := 0 }
    "gabriel" "hola" _ rfl (by decide) rfl

lemma calculateCost_zero (ct : CostTracker) : ct.calculateCost 0 = 0 := by
  simp [CostTracker.calculateCost]

/-- C3: when the provider's classify call fails, `TagMessage.execute` proceeds
with the degraded UNCLASSIFIED classification: the returned tags, signals and
cost are the degraded ones, the cost contribution (returned and accumulated)
is exactly zero, and score, stage and trust are computed from the empty signal
list alone. -/
theorem classify_failure_degrades
    (classify : ClassifyInput → Except String Classification) (costTracker : CostTracker)
    (now : Nat) (store : Store) (userId message : String) (err : String)
    (hfail : classify
        { message := message,
          context := { lastTags := (store.findOrCreate userId).fst.lastTags,
                       stage := (store.findOrCreate userId).fst.stage,
                       trustLevel := (store.findOrCreate userId).fst.trustLevel } }
      = Except.error err) :
    (TagMessage.execute classify costTracker now store userId message).fst.tags
        = ["UNCLASSIFIED"] ∧
    (TagMessage.execute classify costTracker now store userId message).fst.signals = [] ∧
    (TagMessage.execute classify costTracker now store userId message).fst.cost = 0 ∧
    (TagMessage.execute classify costTracker now store userId message).fst.currentScore
        = ScoreEngine.updateScore (store.findOrCreate userId).fst.currentScore [] ∧
    (TagMessage.execute classify costTracker now store userId message).fst.stage
        = ScoreEngine.deriveStage
            (ScoreEngine.updateScore (store.findOrCreate userId).fst.currentScore []) ∧
    (TagMessage.execute classify costTracker now store userId message).fst.trustLevel
        = max 0 (min 100 (store.findOrCreate userId).fst.trustLevel) ∧
    (∀ row ∈ (TagMessage.execute classify costTracker now store userId message).snd.conversations,
      row.id = (store.findOrCreate userId).fst.id →
      row.conversationCost = (store.findOrCreate userId).fst.conversationCost) := by
  have hcls : classifyWithFallback classify
      { message := message,
        context := { lastTags := (store.findOrCreate userId).fst.lastTags,
                     stage := (store.findOrCreate userId).fst.stage,
                     trustLevel := (store.findOrCreate userId).fst.trustLevel } }
      = { tags := ["UNCLASSIFIED"], signals := [], tokensUsed := 0 } := by
    unfold classifyWithFallback
    rw [hfail]
  have htd : trustDeltaOf [] = 0 := rfl
  refine ⟨?_, ?_, ?_, ?_, ?_, ?_, ?_⟩
  · simp only [TagMessage.execute, hcls]
  · simp only [TagMessage.execute, hcls]
  · simp only [TagMessage.execute, hcls]
    simpa using calculateCost_zero costTracker
  · simp only [TagMessage.execute, hcls]
  · simp only [TagMessage.execute, hcls]
  · simp only [TagMessage.execute, hcls, htd]
    ring_nf
  · intro row hrow hid
    simp only [TagMessage.execute, hcls,
      Store.updateConversation_conversations, Store.ite_appendEvent_conversations,
      Store.appendEvent_conversations] at hrow
    obtain ⟨c0, hc0, hfc0⟩ := List.mem_map.mp hrow
    by_cases h0 : c0.id = (store.findOrCreate userId).fst.id
    · rw [if_pos h0] at hfc0
      rw [← hfc0]
      show (store.findOrCreate userId).fst.conversationCost
          + costTracker.calculateCost ((0 : Nat) : ℚ)
        = (store.findOrCreate userId).fst.conversationCost
      simp [calculateCost_zero]
    · rw [if_neg h0] at hfc0
      rw [← hfc0] at hid
      exact absurd hid h0

/-- Witness for C3: a provider that always fails, run on a fresh store. -/
theorem classify_failure_degrades_witness :
    (TagMessage.execute (fun _ => Except.error "boom") (CostTracker.make 2 100) 3
        { conversations := [], events := [], nextId := 0 } "u" "m").fst.tags
      = ["UNCLASSIFIED"] ∧
    (TagMessage.execute (fun _ => Except.error "boom") (CostTracker.make 2 100) 3
        { conversations := [], events := [], nextId := 0 } "u" "m").fst.signals = [] ∧
    (TagMessage.execute (fun _ => Except.error "boom") (CostTracker.make 2 100) 3
        { conversations := [], events := [], nextId := 0 } "u" "m").fst.cost = 0 ∧
    (TagMessage.execute (fun _ => Except.error "boom") (CostTracker.make 2 100) 3
        { conversations := [], events := [], nextId := 0 } "u" "m").fst.currentScore
      = ScoreEngine.updateScore
          ((({ conversations := [], events := [], nextId := 0 } : Store).findOrCreate
            "u").fst).currentScore [] ∧
    (TagMessage.execute (fun _ => Except.error "boom") (CostTracker.make 2 100) 3
        { conversations := [], events := [], nextId := 0 } "u" "m").fst.stage
      = ScoreEngine.deriveStage
          (ScoreEngine.updateScore
            ((({ conversations := [], events := [], nextId := 0 } : Store).findOrCreate
              "u").fst).currentScore []) ∧
    (TagMessage.execute (fun _ => Except.error "boom") (CostTracker.make 2 100) 3
        { conversations := [], events := [], nextId := 0 } "u" "m").fst.trustLevel
      = max 0 (min 100
          ((({ conversations := [], events := [], nextId := 0 } : Store).findOrCreate
            "u").fst).trustLevel) ∧
    (∀ row ∈ (TagMessage.execute (fun _ => Except.error "boom") (CostTracker.make 2 100) 3
        { conversations := [], events := [], nextId := 0 } "u" "m").snd.conversations,
      row.id = ((({ conversations := [], events := [], nextId := 0 } : Store).findOrCreate
          "u").fst).id →
      row.conversationCost
        = ((({ conversations := [], events := [], nextId := 0 } : Store).findOrCreate
            "u").fst).conversationCost) :=
  classify_failure_degrades (fun _ => Except.error "boom") (CostTracker.make 2 100) 3
    { conversations := [], events := [], nextId := 0 } "u" "m" "boom" rfl

/-- Empty store used by concrete witnesses. -/
def emptyStore : Store := { conversations := [], events := [], nextId := 0 }

/-- Conversation row as created for user "u" on an empty store. -/
def freshConvU : ConversationState :=
  { id := 0, userId := "u", currentScore := 0, cumulativeScore := 0, lastTags := [],
    trustLevel := 50, stage := "discovery", messageCount := 0, conversationCost := 0,
    overBudget := false, lastInteractionAt := 0 }

/-- Store state after a successful GenerateResponse run for "u" on the empty
store. -/
def witnessGenStore : Store :=
  { conversations := [freshConvU],
    events := [{ conversationId := 0, type := "ASSISTANT_RESPONSE",
                 metadata := EventMetadata.content "hi" }],
    nextId := 1 }

/-- Rows present before `findOrCreate` are still present after it. -/
lemma findOrCreate_preserves_rows (store : Store) (userId : String) :
    ∀ row ∈ store.conversations, row ∈ (store.findOrCreate userId).snd.conversations := by
  intro row hrow
  unfold Store.findOrCreate
  split
  · exact hrow
  · exact List.mem_append_left _ hrow

/-- C8: `GenerateResponse.execute` never mutates conversation scoring state —
on success the conversation table is exactly what `findOrCreate` left (every
pre-existing row unchanged, no update call), and the returned stage and trust
level are the stored ones. -/
theorem generateResponse_readonly
    (gen : GenInput → Except String GenerationResult) (store : Store)
    (userId message : String) (cid cc : Option String) (out : ChatOutput) (st' : Store)
    (hok : GenerateResponse.execute gen store userId message cid cc = Except.ok (out, st')) :
    st'.conversations = (store.findOrCreate userId).snd.conversations ∧
    (∀ row ∈ store.conversations, row ∈ st'.conversations) ∧
    out.stage = (store.findOrCreate userId).fst.stage ∧
    out.trustLevel = (store.findOrCreate userId).fst.trustLevel := by
  simp only [GenerateResponse.execute] at hok
  split at hok
  · exact absurd hok (by simp)
  · rename_i result hgen
    simp only [Except.ok.injEq, Prod.mk.injEq] at hok
    obtain ⟨hout, hst⟩ := hok
    subst hout hst
    exact ⟨rfl, findOrCreate_preserves_rows store userId, rfl, rfl⟩

/-- Witness for C8: a succeeding generation backend on a fresh store. -/
theorem generateResponse_readonly_witness :
    witnessGenStore.conversations = ((emptyStore.findOrCreate "u").snd).conversations ∧
    (∀ row ∈ emptyStore.conversations, row ∈ witnessGenStore.conversations) ∧
    ({ response := "hi", stage := "discovery", trustLevel := 50 } : ChatOutput).stage
      = ((emptyStore.findOrCreate "u").fst).stage ∧
    ({ response := "hi", stage := "discovery", trustLevel := 50 } : ChatOutput).trustLevel
      = ((emptyStore.findOrCreate "u").fst).trustLevel :=
  generateResponse_readonly (fun _ => Except.ok { text := "hi", tokensUsed := 3 })
    emptyStore "u" "m" none none
    { response := "hi", stage := "discovery", trustLevel := 50 } witnessGenStore rfl

/-! ## Cumulative score: update shape and monotonicity (C5) -/

/-- The row update that `TagMessage.execute` passes to the repository's
`update`, as a standalone function of the pre-call store. -/
def TagMessage.updatedRow (classify : ClassifyInput → Except String Classification)
    (costTracker : CostTracker) (now : Nat) (store : Store)
    (userId message : String) (c : ConversationState) : ConversationState :=
  let conversation := (store.findOrCreate userId).fst
  let classification := classifyWithFallback classify
    { message := message,
      context := { lastTags := conversation.lastTags, stage := conversation.stage,
                   trustLevel := conversation.trustLevel } }
  let newScore := ScoreEngine.updateScore conversation.currentScore classification.signals
  let newStage := ScoreEngine.deriveStage newScore
  let messageCost := costTracker.calculateCost (classification.tokensUsed : ℚ)
  let totalCost := conversation.conversationCost + messageCost
  let isOver := costTracker.isOverBudget totalCost
  let newTrust := max 0 (min 100 (conversation.trustLevel + trustDeltaOf classification.signals))
  { c with
    currentScore := newScore,
    cumulativeScore := conversation.cumulativeScore +
      (if newScore > conversation.currentScore
       then newScore - conversation.currentScore else 0),
    lastTags := classification.tags,
    trustLevel := newTrust,
    stage := newStage,
    messageCount := conversation.messageCount + 1,
    conversationCost := totalCost,
    overBudget := isOver,
    lastInteractionAt := now }

lemma execute_snd_conversations (classify : ClassifyInput → Except String Classification)
    (costTracker : CostTracker) (now : Nat) (store : Store) (userId message : String) :
    (TagMessage.execute classify costTracker now store userId message).snd.conversations
      = (store.findOrCreate userId).snd.conversations.map
          (fun c =>
            if c.id = (store.findOrCreate userId).fst.id
            then TagMessage.updatedRow classify costTracker now store userId message c
            else c) := by
  simp only [TagMessage.execute, TagMessage.updatedRow,
    Store.updateConversation_conversations, Store.ite_appendEvent_conversations,
    Store.appendEvent_conversations]

lemma execute_snd_nextId (classify : ClassifyInput → Except String Classification)
    (costTracker : CostTracker) (now : Nat) (store : Store) (userId message : String) :
    (TagMessage.execute classify costTracker now store userId message).snd.nextId
      = (store.findOrCreate userId).snd.nextId := by
  simp only [TagMessage.execute, Store.updateConversation_nextId,
    Store.ite_appendEvent_nextId, Store.appendEvent_nextId]

lemma updatedRow_id (classify : ClassifyInput → Except String Classification)
    (costTracker : CostTracker) (now : Nat) (store : Store) (userId message : String)
    (c : ConversationState) :
    (TagMessage.updatedRow classify costTracker now store userId message c).id = c.id := rfl

lemma updatedRow_cumulative_ge (classify : ClassifyInput → Except String Classification)
    (costTracker : CostTracker) (now : Nat) (store : Store) (userId message : String)
    (c : ConversationState) :
    (store.findOrCreate userId).fst.cumulativeScore
      ≤ (TagMessage.updatedRow classify costTracker now store userId message c).cumulativeScore := by
  simp only [TagMessage.updatedRow]
  split_ifs <;> omega

/-- Well-formedness of the store: row ids are below the generator counter and
pairwise distinct. -/
def Store.WF (store : Store) : Prop :=
  (∀ c ∈ store.conversations, c.id < store.nextId) ∧
  (store.conversations.map ConversationState.id).Nodup

lemma findOrCreate_found_or_created (store : Store) (userId : String) :
    ((store.findOrCreate userId).snd = store ∧
     (store.findOrCreate userId).fst ∈ store.conversations) ∨
    ((store.findOrCreate userId).fst.id = store.nextId ∧
     (store.findOrCreate userId).snd.conversations
        = store.conversations ++ [(store.findOrCreate userId).fst] ∧
     (store.findOrCreate userId).snd.nextId = store.nextId + 1) := by
  unfold Store.findOrCreate
  cases h : store.conversations.find? (fun c => c.userId == userId) with
  | some c => exact Or.inl ⟨rfl, List.mem_of_find?_eq_some h⟩
  | none => exact Or.inr ⟨rfl, rfl, rfl⟩

lemma findOrCreate_WF (store : Store) (userId : String) (hWF : store.WF) :
    (store.findOrCreate userId).snd.WF := by
  rcases findOrCreate_found_or_created store userId with ⟨heq, _⟩ | ⟨hid, hconvs, hnext⟩
  · rw [heq]; exact hWF
  · constructor
    · intro c hc
      rw [hconvs] at hc
      rw [hnext]
      rcases List.mem_append.mp hc with h | h
      · exact Nat.lt_trans (hWF.1 c h) (Nat.lt_succ_self _)
      · rw [List.mem_singleton.mp h, hid]
        exact Nat.lt_succ_self _
    · rw [hconvs, List.map_append]
      rw [List.nodup_append]
      refine ⟨hWF.2, List.nodup_singleton _, ?_⟩
      intro a ha hb
      rw [List.map_singleton, List.mem_singleton] at hb
      obtain ⟨c, hc, hca⟩ := List.mem_map.mp ha
      have : c.id < store.nextId := hWF.1 c hc
      rw [hca, hb, hid] at this
      exact Nat.lt_irrefl _ this

lemma findOrCreate_length (store : Store) (userId : String) :
    store.conversations.length ≤ (store.findOrCreate userId).snd.conversations.length := by
  rcases findOrCreate_found_or_created store userId with ⟨heq, _⟩ | ⟨_, hconvs, _⟩
  · rw [heq]
  · rw [hconvs]
    simp

lemma get_congr_list {α : Type} (l l' : List α) (h : l = l') (j : Nat)
    (hj : j < l.length) (hj' : j < l'.length) :
    l.get ⟨j, hj⟩ = l'.get ⟨j, hj'⟩ := by
  subst h
  rfl

lemma findOrCreate_get (store : Store) (userId : String) (j : Nat)
    (hj : j < store.conversations.length)
    (hj1 : j < (store.findOrCreate userId).snd.conversations.length) :
    (store.findOrCreate userId).snd.conversations.get ⟨j, hj1⟩
      = store.conversations.get ⟨j, hj⟩ := by
  rcases findOrCreate_found_or_created store userId with ⟨heq, _⟩ | ⟨_, hconvs, _⟩
  · exact get_congr_list _ _ (by rw [heq]) j hj1 hj
  · have h2 : (store.findOrCreate userId).snd.conversations.get ⟨j, hj1⟩
        = (store.conversations ++ [(store.findOrCreate userId).fst]).get
            ⟨j, by rw [← hconvs]; exact hj1⟩ :=
      get_congr_list _ _ hconvs j hj1 (by rw [← hconvs]; exact hj1)
    rw [h2]
    simp only [List.get_eq_getElem]
    exact List.getElem_append_left hj

lemma execute_step (classify : ClassifyInput → Except String Classification)
    (costTracker : CostTracker) (now : Nat) (store : Store) (userId message : String)
    (hWF : store.WF) :
    (TagMessage.execute classify costTracker now store userId message).snd.WF ∧
    store.conversations.length
      ≤ (TagMessage.execute classify costTracker now store userId message).snd.conversations.length ∧
    ∀ j (hj : j < store.conversations.length)
      (hj' : j < (TagMessage.execute classify costTracker now store userId
          message).snd.conversations.length),
      (store.conversations.get ⟨j, hj⟩).cumulativeScore
        ≤ ((TagMessage.execute classify costTracker now store userId
            message).snd.conversations.get ⟨j, hj'⟩).cumulativeScore := by
  have hshape := execute_snd_conversations classify costTracker now store userId message
  have hnext := execute_snd_nextId classify costTracker now store userId message
  have hWF1 := findOrCreate_WF store userId hWF
  have hgid : ∀ c : ConversationState,
      ((fun c => if c.id = (store.findOrCreate userId).fst.id
        then TagMessage.updatedRow classify costTracker now store userId message c
        else c) c).id = c.id := by
    intro c
    by_cases h : c.id = (store.findOrCreate userId).fst.id <;> simp [h, updatedRow_id]
  have hmapid : ∀ l : List ConversationState,
      (l.map (fun c => if c.id = (store.findOrCreate userId).fst.id
        then TagMessage.updatedRow classify costTracker now store userId message c
        else c)).map ConversationState.id = l.map ConversationState.id := by
    intro l
    induction l with
    | nil => rfl
    | cons c l ih => simp only [List.map_cons, ih, hgid c]
  refine ⟨⟨?_, ?_⟩, ?_, ?_⟩
  · intro c hc
    rw [hshape] at hc
    rw [hnext]
    obtain ⟨c0, hc0, hcc0⟩ := List.mem_map.mp hc
    have : c.id = c0.id := by rw [← hcc0]; exact hgid c0
    rw [this]
    exact hWF1.1 c0 hc0
  · rw [hshape, hmapid]
    exact hWF1.2
  · rw [hshape, List.length_map]
    exact findOrCreate_length store userId
  · intro j hj hj'
    have hj1 : j < (store.findOrCreate userId).snd.conversations.length := by
      have := hj'
      rw [hshape, List.length_map] at this
      exact this
    have hget : (TagMessage.execute classify costTracker now store userId
          message).snd.conversations.get ⟨j, hj'⟩
        = (fun c => if c.id = (store.findOrCreate userId).fst.id
            then TagMessage.updatedRow classify costTracker now store userId message c
            else c) ((store.findOrCreate userId).snd.conversations.get ⟨j, hj1⟩) := by
      have h1 : (TagMessage.execute classify costTracker now store userId
            message).snd.conversations.get ⟨j, hj'⟩
          = ((store.findOrCreate userId).snd.conversations.map
              (fun c => if c.id = (store.findOrCreate userId).fst.id
                then TagMessage.updatedRow classify costTracker now store userId message c
                else c)).get ⟨j, by rw [← hshape]; exact hj'⟩ :=
        get_congr_list _ _ hshape j hj' (by rw [← hshape]; exact hj')
      rw [h1]
      simp only [List.get_eq_getElem, List.getElem_map]
    rw [hget, findOrCreate_get store userId j hj hj1]
    set row := store.conversations.get ⟨j, hj⟩ with hrow
    by_cases hid : row.id = (store.findOrCreate userId).fst.id
    · simp only [hid, if_pos rfl]
      rcases findOrCreate_found_or_created store userId with ⟨_, hmem⟩ | ⟨hcid, _, _⟩
      · have hroweq : row = (store.findOrCreate userId).fst := by
          exact List.inj_on_of_nodup_map hWF.2 (List.get_mem _ _ _) hmem hid
        rw [hroweq]
        exact updatedRow_cumulative_ge classify costTracker now store userId message _
      · exfalso
        have hlt : row.id < store.nextId := hWF.1 row (List.get_mem _ _ _)
        rw [hid, hcid] at hlt
        exact Nat.lt_irrefl _ hlt
    · simp only [if_neg hid]
      exact le_refl _

lemma runTagMessages_cons (classify : ClassifyInput → Except String Classification)
    (costTracker : CostTracker) (now : Nat) (store : Store) (m : String × String)
    (rest : List (String × String)) :
    runTagMessages classify costTracker now store (m :: rest)
      = runTagMessages classify costTracker now
          (TagMessage.execute classify costTracker now store m.fst m.snd).snd rest := rfl

lemma runTagMessages_mono (classify : ClassifyInput → Except String Classification)
    (costTracker : CostTracker) (now : Nat) (msgs : List (String × String)) :
    ∀ store : Store, store.WF →
      (runTagMessages classify costTracker now store msgs).WF ∧
      store.conversations.length
        ≤ (runTagMessages classify costTracker now store msgs).conversations.length ∧
      ∀ j (hj : j < store.conversations.length)
        (hj' : j < (runTagMessages classify costTracker now store msgs).conversations.length),
        (store.conversations.get ⟨j, hj⟩).cumulativeScore
          ≤ ((runTagMessages classify costTracker now store
              msgs).conversations.get ⟨j, hj'⟩).cumulativeScore := by
  induction msgs with
  | nil =>
    intro store hWF
    exact ⟨hWF, le_refl _, fun j hj hj' => le_refl _⟩
  | cons m rest ih =>
    intro store hWF
    have hstep := execute_step classify costTracker now store m.fst m.snd hWF
    have hih := ih (TagMessage.execute classify costTracker now store m.fst m.snd).snd hstep.1
    rw [runTagMessages_cons]
    refine ⟨hih.1, le_trans hstep.2.1 hih.2.1, ?_⟩
    intro j hj hj'
    have hj2 : j < (TagMessage.execute classify costTracker now store m.fst
        m.snd).snd.conversations.length := lt_of_lt_of_le hj hstep.2.1
    exact le_trans (hstep.2.2 j hj hj2) (hih.2.2 j hj2 hj')

/-- C5: the persisted cumulativeScore equals the previous one plus the
positive part of the score delta, and across every sequence of TagMessage
invocations the cumulativeScore of every stored conversation never
decreases. -/
theorem cumulativeScore_monotone (classify : ClassifyInput → Except String Classification)
    (costTracker : CostTracker) (now : Nat) (store : Store) (userId message : String)
    (msgs : List (String × String)) (j : Nat) (hWF : store.WF)
    (hj : j < store.conversations.length)
    (hj' : j < (runTagMessages classify costTracker now store msgs).conversations.length) :
    (∀ row ∈ (TagMessage.execute classify costTracker now store userId
        message).snd.conversations,
      row.id = (store.findOrCreate userId).fst.id →
      row.cumulativeScore
        = (store.findOrCreate userId).fst.cumulativeScore
          + max 0 (ScoreEngine.updateScore (store.findOrCreate userId).fst.currentScore
                (classifyWithFallback classify
                  { message := message,
                    context := { lastTags := (store.findOrCreate userId).fst.lastTags,
                                 stage := (store.findOrCreate userId).fst.stage,
                                 trustLevel := (store.findOrCreate userId).fst.trustLevel }
                  }).signals
              - (store.findOrCreate userId).fst.currentScore)) ∧
    (store.conversations.get ⟨j, hj⟩).cumulativeScore
      ≤ ((runTagMessages classify costTracker now store
          msgs).conversations.get ⟨j, hj'⟩).cumulativeScore := by
  constructor
  · intro row hrow hid
    rw [execute_snd_conversations] at hrow
    obtain ⟨c0, hc0, hfc0⟩ := List.mem_map.mp hrow
    by_cases h0 : c0.id = (store.findOrCreate userId).fst.id
    · rw [if_pos h0] at hfc0
      rw [← hfc0]
      show (store.findOrCreate userId).fst.cumulativeScore + _ = _
      congr 1
      omega
    · rw [if_neg h0] at hfc0
      rw [← hfc0] at hid
      exact absurd hid h0
  · exact (runTagMessages_mono classify costTracker now msgs store hWF).2.2 j hj hj'

/-- Witness for C5 on a store holding one conversation, with one further
invocation in the sequence. -/
theorem cumulativeScore_monotone_witness :
    (∀ row ∈ (TagMessage.execute
        (fun _ => Except.ok { tags := [], signals := ["ARCHITECTURE_DESIGN"], tokensUsed := 10 })
        (CostTracker.make 2 100) 3 witnessGenStore "u" "hola").snd.conversations,
      row.id = ((witnessGenStore.findOrCreate "u").fst).id →
      row.cumulativeScore
        = ((witnessGenStore.findOrCreate "u").fst).cumulativeScore
          + max 0 (ScoreEngine.updateScore ((witnessGenStore.findOrCreate "u").fst).currentScore
                (classifyWithFallback
                  (fun _ => Except.ok { tags := [], signals := ["ARCHITECTURE_DESIGN"],
                                        tokensUsed := 10 })
                  { message := "hola",
                    context := { lastTags := ((witnessGenStore.findOrCreate "u").fst).lastTags,
                                 stage := ((witnessGenStore.findOrCreate "u").fst).stage,
                                 trustLevel := ((witnessGenStore.findOrCreate "u").fst).trustLevel }
                  }).signals
              - ((witnessGenStore.findOrCreate "u").fst).currentScore)) ∧
    (witnessGenStore.conversations.get ⟨0, by decide⟩).cumulativeScore
      ≤ ((runTagMessages
          (fun _ => Except.ok { tags := [], signals := ["ARCHITECTURE_DESIGN"], tokensUsed := 10 })
          (CostTracker.make 2 100) 3 witnessGenStore
          [("u", "hola")]).conversations.get ⟨0, by decide⟩).cumulativeScore :=
  cumulativeScore_monotone
    (fun _ => Except.ok { tags := [], signals := ["ARCHITECTURE_DESIGN"], tokensUsed := 10 })
    (CostTracker.make 2 100) 3 witnessGenStore "u" "hola" [("u", "hola")] 0
    (by constructor
        · intro c hc
          simp only [witnessGenStore, freshConvU] at hc
          simp only [List.mem_singleton] at hc
          rw [hc]
          decide
        · decide)
    (by decide) (by decide)

end AlexDev
